import Mathlib

set_option autoImplicit false
set_option maxRecDepth 8192

/-!
Verification of the resilience layer of the centerfire-intelligence
repository: the dual-transport RPC client (`src/utilities/claude_http_client.py`)
and the health-gated disk buffer of the capture agent
(`src/agents/AGT-CLAUDE-CAPTURE-1__0368F157/main.py`), shallowly embedded.

JSON values / dynamic Python values are modelled by `JVal`; Python `None`
and JSON `null` are both `JVal.null` (json decoding maps them to the same
object in the source).  Effects (HTTP responses, broker messages, disk and
store I/O outcomes, the clock) are explicit parameters; a Python exception
is an `Except`/`PyResult` error value carrying a message string (exception
messages for library errors are abbreviated, e.g. "AttributeError" - no
claim depends on their exact text).
-/

mutual

/-- A JSON / dynamic Python value.  Arrays are not needed on the code paths
under study: any non-object value only ever matters as an atomic leaf. -/
inductive JVal where
  | str (s : String)
  | num (n : Int)
  | bool (b : Bool)
  | null
  | obj (kvs : JObj)
deriving DecidableEq

/-- A JSON object / Python dict, as an association list. -/
inductive JObj where
  | nil
  | cons (k : String) (v : JVal) (rest : JObj)
deriving DecidableEq

end

/-- Build a `JObj` from a list of key/value pairs. -/
def jobj : List (String × JVal) → JObj
  | [] => .nil
  | (k, v) :: rest => .cons k v (jobj rest)

/-- Key lookup in an object (keys are unique in every object the code
builds or decodes). -/
def JObj.lookup : JObj → String → Option JVal
  | .nil, _ => none
  | .cons k v rest, key => if k = key then some v else rest.lookup key

/-- Python `d.get(k)`: `None` (= `null`) when the key is absent. -/
def pyGet (kvs : JObj) (k : String) : JVal :=
  (kvs.lookup k).getD JVal.null

/-- Python `d.get(k, default)`. -/
def pyGetD (kvs : JObj) (k : String) (d : JVal) : JVal :=
  (kvs.lookup k).getD d

/-- Python truthiness of a dynamic value. -/
def truthy : JVal → Bool
  | .str s => s != ""
  | .num n => n != 0
  | .bool b => b
  | .null => false
  | .obj kvs => kvs != JObj.nil

mutual

/-- `json.dumps` (string escaping elided; no claim inspects the text of a
serialized payload). -/
def jdump : JVal → String
  | .str s => "\"" ++ s ++ "\""
  | .num n => toString n
  | .bool true => "true"
  | .bool false => "false"
  | .null => "null"
  | .obj kvs => "\x7b" ++ jdumpObj kvs ++ "\x7d"

/-- Object-body part of `json.dumps`. -/
def jdumpObj : JObj → String
  | .nil => ""
  | .cons k v .nil => "\"" ++ k ++ "\": " ++ jdump v
  | .cons k v rest => "\"" ++ k ++ "\": " ++ jdump v ++ ", " ++ jdumpObj rest

end

/-- Python `str()` as used in f-string interpolation (`repr` of a dict is
approximated by its JSON text; only leaf values reach f-strings on the
paths any claim inspects). -/
def pyStr : JVal → String
  | .str s => s
  | .num n => toString n
  | .bool true => "True"
  | .bool false => "False"
  | .null => "None"
  | .obj kvs => "\x7b" ++ jdumpObj kvs ++ "\x7d"

/-! ## The RPC client (`claude_http_client.py`) -/

/-- `TransportMode` (claude_http_client.py:28-31). -/
inductive TransportMode where
  | HTTP_ONLY
  | REDIS_ONLY
  | HTTP_WITH_FALLBACK
deriving DecidableEq

/-- `AgentResponse` (claude_http_client.py:33-40).  Fields hold raw dynamic
values exactly as the Python dataclass does (the annotations are not
enforced at runtime); `response_time_ms` is wall-clock noise and is not
modelled. -/
structure AgentResponse where
  success : JVal := JVal.null
  data : JVal := JVal.null
  error : JVal := JVal.null
  request_id : JVal := JVal.null
  transport_used : JVal := JVal.null
deriving DecidableEq

/-- The discovery-cache fields of `CenterfireClient`
(claude_http_client.py:76-78).  `gateway_cache_time` is `none` before the
first successful lookup; a stored `time.time()` stamp is strictly positive,
so its Python truthiness reduces to is-not-None. -/
structure DiscoveryState where
  gateway_info : Option JVal
  gateway_cache_time : Option Nat
deriving DecidableEq

/-- `self._cache_ttl_seconds` (claude_http_client.py:78). -/
def cache_ttl_seconds : Nat := 300

/-- An HTTP response as the `requests` library presents it: status code,
decoded JSON body (`none` = `response.json()` raises), and raw text. -/
structure HttpResp where
  status : Nat
  body : Option JVal
  text : String
deriving DecidableEq

/-- The lookup part of `_discover_gateway` (claude_http_client.py:277-297):
query the manager, cache and return the service info on success, raise on
any failure.  The argument is the outcome of `requests.get` (`Except.error`
= connection error).  The doubled "Service discovery failed:" prefix on the
inner-raise paths is faithful to the source: line 292 raises with that
prefix and line 297 wraps the caught exception with it again. -/
def gatewayLookup (now : Nat) (resp : Except String HttpResp) :
    Except String (JVal × DiscoveryState) :=
  match resp with
  | .error e => .error ("Service discovery failed: " ++ e)
  | .ok r =>
    if r.status = 200 then
      match r.body with
      | some (JVal.obj data) =>
        if truthy (pyGet data "success") then
          let service_info := pyGetD data "service" (JVal.obj JObj.nil)
          .ok (service_info,
               { gateway_info := some service_info, gateway_cache_time := some now })
        else
          .error ("Service discovery failed: Service discovery failed: " ++
                  pyStr (pyGetD data "error" (JVal.str "Unknown error")))
      | some _ => .error "Service discovery failed: AttributeError"
      | none => .error "Service discovery failed: JSONDecodeError"
    else
      .error ("Service discovery failed: Manager returned HTTP " ++ toString r.status)

/-- `_discover_gateway` (claude_http_client.py:267-297): return the cached
info while it is truthy and younger than the TTL, otherwise perform the
lookup (which replaces the cache on success and raises on failure). -/
def discover_gateway (st : DiscoveryState) (now : Nat)
    (lookup : Except String HttpResp) : Except String (JVal × DiscoveryState) :=
  match st.gateway_info, st.gateway_cache_time with
  | some info, some _t =>
    if truthy info && decide (now - _t < cache_ttl_seconds) then .ok (info, st)
    else gatewayLookup now lookup
  | _, _ => gatewayLookup now lookup

/-- The URL built at claude_http_client.py:169: the host part is the literal
`localhost`; only the port is taken from the discovered gateway info
(indexing the port raises `KeyError` when absent and `TypeError` when the
info is not a dict). -/
def buildAgentUrl (gateway_info : JVal) (agent action : String) :
    Except String String :=
  match gateway_info with
  | JVal.obj kvs =>
    match kvs.lookup "port" with
    | some p => .ok ("http://localhost:" ++ pyStr p ++ "/api/agents/" ++
                     agent ++ "/" ++ action)
    | none => .error "KeyError: port"
  | _ => .error "TypeError: gateway info is not a dict"

/-- `_call_via_http` (claude_http_client.py:158-204).  `lookup` is the
discovery response of the manager, `post` the response of the gateway to
the POST on the built URL (`Except.error` = connection error / timeout
raised by `requests.post`); the request body (`params`) is absorbed into
`post`. -/
def call_via_http (agent action request_id : String)
    (st : DiscoveryState) (now : Nat)
    (lookup post : Except String HttpResp) :
    Except String (AgentResponse × DiscoveryState) := do
  let (gateway_info, st') ← discover_gateway st now lookup
  let _ ← buildAgentUrl gateway_info agent action
  match post with
  | .error e => .error e
  | .ok resp =>
    if resp.status = 200 then
      match resp.body with
      | some (JVal.obj data) =>
        .ok ({ success := pyGetD data "success" (JVal.bool true),
               data := pyGetD data "data" (JVal.obj data),
               error := pyGet data "error",
               request_id := JVal.str request_id }, st')
      | some _ => .error "AttributeError"
      | none => .error "JSONDecodeError"
    else
      let errMsg : JVal :=
        match resp.body with
        | some (JVal.obj ed) =>
          pyGetD ed "error" (JVal.str ("HTTP " ++ toString resp.status))
        | _ => JVal.str ("HTTP " ++ toString resp.status ++ ": " ++ resp.text)
      .ok ({ success := JVal.bool false, data := JVal.null, error := errMsg,
             request_id := JVal.str request_id }, st')

/-- One message surfaced by `pubsub.listen()`: its type (`"message"`,
`"subscribe"`, ...), the JSON decode of its data (`none` =
`json.JSONDecodeError`), and the value of `time.time()` at the moment the
loop body processes it. -/
structure RedisMsg where
  mtype : String
  payload : Option JVal
  arrival : Nat
deriving DecidableEq

/-- Outcome of the listen loop of `_call_via_redis`
(claude_http_client.py:243-261).  `blocked` is the case in which the
message source is exhausted with no verdict: `pubsub.listen()` then waits
forever, so the loop never terminates. -/
inductive RedisOutcome where
  | delivered (r : AgentResponse)
  | timedOut
  | raised (e : String)
  | blocked
deriving DecidableEq

/-- The `AgentResponse` built for a matching reply
(claude_http_client.py:250-255): note `data` is the whole decoded envelope,
not its `data` field. -/
def redisResponse (kvs : JObj) (request_id : String) : AgentResponse :=
  { success := pyGetD kvs "success" (JVal.bool (!truthy (pyGet kvs "error"))),
    data := JVal.obj kvs,
    error := pyGet kvs "error",
    request_id := JVal.str request_id }

/-- The listen loop of `_call_via_redis` (claude_http_client.py:243-261),
processing messages in arrival order.  An undecodable payload `continue`s,
which skips the timeout check; a decodable non-dict payload makes
`response_data.get` raise `AttributeError`; the timeout check only runs
after a processed message, so an exhausted source blocks. -/
def redisListen (request_id : String) (deadline : Nat) :
    List RedisMsg → RedisOutcome
  | [] => .blocked
  | m :: rest =>
    if m.mtype = "message" then
      match m.payload with
      | none => redisListen request_id deadline rest
      | some (JVal.obj kvs) =>
        if pyGet kvs "request_id" = JVal.str request_id then
          .delivered (redisResponse kvs request_id)
        else if decide (m.arrival > deadline) then .timedOut
        else redisListen request_id deadline rest
      | some _ => .raised "AttributeError"
    else
      if decide (m.arrival > deadline) then .timedOut
      else redisListen request_id deadline rest

/-- Result of running a Python call: normal return, raised exception, or
divergence (a loop that never returns). -/
inductive PyResult (α : Type) where
  | ok (a : α)
  | exn (e : String)
  | diverge
deriving DecidableEq

/-- `_call_via_redis` (claude_http_client.py:206-265).  `conn` is the
combined outcome of client construction / subscribe / publish (any raise
there propagates); `t0` is `time.time()` at publish, so the deadline is
`t0 + timeout_seconds` (line 241). -/
def call_via_redis (request_id : String) (timeout_seconds : Nat)
    (conn : Except String Unit) (t0 : Nat) (msgs : List RedisMsg) :
    PyResult AgentResponse :=
  match conn with
  | .error e => .exn e
  | .ok _ =>
    match redisListen request_id (t0 + timeout_seconds) msgs with
    | .delivered r => .ok r
    | .timedOut => .exn ("Redis call timed out after " ++
                         toString timeout_seconds ++ " seconds")
    | .raised e => .exn e
    | .blocked => .diverge

/-- The Redis phase of `call_agent` (claude_http_client.py:131-146): on
success tag the response `redis_fallback`; on a raise build the both-failed
response.  Faithful to line 142, BOTH slots of the aggregated error
interpolate the same `e` - the Redis exception - because the HTTP
exception variable is out of scope there. -/
def redisPhase (request_id : String) (timeout_seconds : Nat)
    (conn : Except String Unit) (t0 : Nat) (msgs : List RedisMsg) :
    PyResult AgentResponse :=
  match call_via_redis request_id timeout_seconds conn t0 msgs with
  | .ok r => .ok { r with transport_used := JVal.str "redis_fallback" }
  | .exn e =>
    .ok { success := JVal.bool false, data := JVal.null,
          error := JVal.str ("Both HTTP and Redis transports failed. HTTP: " ++
                             e ++ ", Redis: " ++ e),
          request_id := JVal.str request_id,
          transport_used := JVal.str "all_failed" }
  | .diverge => .diverge

/-- `call_agent` (claude_http_client.py:86-156): try HTTP unless
`REDIS_ONLY`; on an HTTP raise either stop (`HTTP_ONLY`) or fall back to
Redis. -/
def call_agent (agent action : String)
    (transport_mode : TransportMode) (force_transport : Option TransportMode)
    (request_id : String) (timeout_seconds : Nat)
    (st : DiscoveryState) (now : Nat)
    (lookup post : Except String HttpResp)
    (conn : Except String Unit) (t0 : Nat) (msgs : List RedisMsg) :
    PyResult AgentResponse :=
  let effective_mode := force_transport.getD transport_mode
  if effective_mode = TransportMode.REDIS_ONLY then
    redisPhase request_id timeout_seconds conn t0 msgs
  else
    match call_via_http agent action request_id st now lookup post with
    | .ok (r, _) => .ok { r with transport_used := JVal.str "http_gateway" }
    | .error e =>
      if effective_mode = TransportMode.HTTP_ONLY then
        .ok { success := JVal.bool false, data := JVal.null,
              error := JVal.str ("HTTP transport failed: " ++ e),
              request_id := JVal.str request_id,
              transport_used := JVal.str "http_gateway_failed" }
      else
        redisPhase request_id timeout_seconds conn t0 msgs

/-! ## The capture agent (`AGT-CLAUDE-CAPTURE-1__0368F157/main.py`) -/

/-- `self.conversation_stream` (main.py:70). -/
def conversation_stream : String := "centerfire:semantic:conversations"

/-- `self.redis_check_interval` (main.py:65). -/
def redis_check_interval : Nat := 30

/-- One line of the disk buffer file (main.py:402-406). -/
structure BufferEntry where
  timestamp : String
  stream : String
  data : JVal
deriving DecidableEq

/-- The failover-relevant state of `ClaudeCaptureAgent` (main.py:61-65)
together with the two external artefacts it drives: the buffer file
(`none` = absent) and the contents of the downstream conversation stream
(`xadd` targets), in arrival order. -/
structure CaptureState where
  redis_healthy : Bool
  disk_buffer_active : Bool
  last_redis_check : Nat
  buffer_file : Option (List BufferEntry)
  store : List JVal
deriving DecidableEq

/-- `_check_redis_health` (main.py:372-391): inside the check interval,
return with no probe; otherwise stamp the check time and ping (`pingOk`),
recovering to healthy on success and dropping to unhealthy on a raise. -/
def check_redis_health (st : CaptureState) (now : Nat) (pingOk : Bool) :
    CaptureState :=
  if now - st.last_redis_check < redis_check_interval then st
  else
    let st1 := { st with last_redis_check := now }
    if pingOk then
      if !st1.redis_healthy then { st1 with redis_healthy := true } else st1
    else
      if st1.redis_healthy then { st1 with redis_healthy := false } else st1

/-- `_write_to_disk` (main.py:399-412): append one wrapped entry to the
buffer file (append mode creates the file when absent).  `ioOk = false` is a
raise from open/write: it is caught, logged and swallowed, so the state is
returned unchanged and the record is lost. -/
def write_to_disk (st : CaptureState) (tstamp : String) (stream_data : JVal)
    (ioOk : Bool) : CaptureState :=
  if ioOk then
    let entries := st.buffer_file.getD [] ++
      [⟨tstamp, conversation_stream, stream_data⟩]
    { st with buffer_file := some entries }
  else st

/-- The forward loop of `_replay_disk_buffer` (main.py:424-432): `xadd`
the data of each entry in file order; `ok i` is the success of the i-th `xadd`
of the pass, and the first raise aborts the loop (`false` component). -/
def replayLoop (ok : Nat → Bool) : Nat → List JVal → List BufferEntry →
    List JVal × Bool
  | _, store, [] => (store, true)
  | i, store, e :: rest =>
    if ok i then replayLoop ok (i + 1) (store ++ [e.data]) rest
    else (store, false)

/-- `_replay_disk_buffer` (main.py:414-441): nothing to do when the file is
absent; otherwise forward every entry, then unlink the file and drop the
buffering flag.  A raise anywhere (a failed `xadd`, or `unlinkOk = false`
for a failed unlink) is caught at line 440: logged, swallowed, file left as
it was. -/
def replay_disk_buffer (st : CaptureState) (ok : Nat → Bool)
    (unlinkOk : Bool) : CaptureState :=
  match st.buffer_file with
  | none => st
  | some entries =>
    match replayLoop ok 0 st.store entries with
    | (store', true) =>
      if unlinkOk then
        { st with store := store', buffer_file := none,
                  disk_buffer_active := false }
      else { st with store := store' }
    | (store', false) => { st with store := store' }

/-- The wrapped record `_stream_conversation` builds at main.py:262-264:
a one-key map holding the JSON text of the conversation data. -/
def stream_payload (conversation_data : JVal) : JVal :=
  JVal.obj (jobj [("data", JVal.str (jdump conversation_data))])

/-- `_stream_conversation` (main.py:260-287): wrap the conversation data,
run the health check, then either write directly to the store (replaying
the buffer after a successful write if failover was active) or, when
unhealthy - or when the direct write raises, which also flips the health
flag and activates the buffer - append to the disk buffer. -/
def stream_conversation (st : CaptureState) (conversation_data : JVal)
    (now : Nat) (pingOk : Bool) (xaddOk : Bool)
    (replayXaddOk : Nat → Bool) (unlinkOk : Bool)
    (tstamp : String) (diskOk : Bool) : CaptureState :=
  let stream_data := stream_payload conversation_data
  let st1 := check_redis_health st now pingOk
  if st1.redis_healthy then
    if xaddOk then
      let st2 := { st1 with store := st1.store ++ [stream_data] }
      if st2.disk_buffer_active then replay_disk_buffer st2 replayXaddOk unlinkOk
      else st2
    else
      let st2 := { st1 with redis_healthy := false, disk_buffer_active := true }
      write_to_disk st2 tstamp stream_data diskOk
  else
    write_to_disk st1 tstamp stream_data diskOk

deriving instance DecidableEq for Except

/-- The buffer entry `_write_to_disk` produces for a record
`(tstamp, stream_data)` destined for the conversation stream. -/
def entryOf (r : String × JVal) : BufferEntry :=
  ⟨r.1, conversation_stream, r.2⟩

/-- A sequence of successful `_write_to_disk` appends, in order. -/
def appendAll (st : CaptureState) : List (String × JVal) → CaptureState
  | [] => st
  | (ts, d) :: rest => appendAll (write_to_disk st ts d true) rest

/-- I/O oracle: every operation succeeds. -/
def okAll : Nat → Bool := fun _ => true

/-- I/O oracle: every operation raises. -/
def okNone : Nat → Bool := fun _ => false

/-- I/O oracle: only the first operation succeeds, the second raises. -/
def okFirstOnly : Nat → Bool := fun i => i == 0

/-! ## Theorems

Helper lemmas first, then one theorem per claim (with its witness, and a
counterexample where the claim as stated fails on the code). -/

/-- If the forward loop of a replay pass completes, the store received
every buffered entry, in file order. -/
theorem replayLoop_success_store (ok : Nat → Bool) :
    ∀ (entries : List BufferEntry) (i : Nat) (store : List JVal),
      (replayLoop ok i store entries).2 = true →
      (replayLoop ok i store entries).1 = store ++ entries.map (fun e => e.data) := by
  intro entries
  induction entries with
  | nil => intro i store _; simp [replayLoop]
  | cons e rest ih =>
    intro i store h
    cases hok : ok i with
    | false => simp [replayLoop, hok] at h
    | true =>
      simp [replayLoop, hok] at h ⊢
      rw [ih (i + 1) (store ++ [e.data]) h]
      simp

/-- If the forward loop of a replay pass completes, every `xadd` of the
pass succeeded. -/
theorem replayLoop_success_all_ok (ok : Nat → Bool) :
    ∀ (entries : List BufferEntry) (i : Nat) (store : List JVal),
      (replayLoop ok i store entries).2 = true →
      ∀ j < entries.length, ok (i + j) = true := by
  intro entries
  induction entries with
  | nil => intro i store _ j hj; simp at hj
  | cons e rest ih =>
    intro i store h j hj
    cases hok : ok i with
    | false => simp [replayLoop, hok] at h
    | true =>
      cases j with
      | zero => simpa using hok
      | succ j' =>
        simp only [replayLoop, hok, if_true] at h
        have h2 := ih (i + 1) (store ++ [e.data]) h j' (by simp at hj; omega)
        have heq : i + (j' + 1) = i + 1 + j' := by omega
        rw [heq]; exact h2

/-- When every `xadd` of the pass succeeds, the forward loop forwards all
entries in order and reports success. -/
theorem replayLoop_all_ok_success (ok : Nat → Bool) :
    ∀ (entries : List BufferEntry) (i : Nat) (store : List JVal),
      (∀ j < entries.length, ok (i + j) = true) →
      replayLoop ok i store entries = (store ++ entries.map (fun e => e.data), true) := by
  intro entries
  induction entries with
  | nil => intro i store _; simp [replayLoop]
  | cons e rest ih =>
    intro i store h
    have hok : ok i = true := by simpa using h 0 (by simp)
    simp [replayLoop, hok]
    rw [ih (i + 1) (store ++ [e.data])]
    · simp
    · intro j hj
      have h2 := h (j + 1) (by simpa using Nat.succ_lt_succ hj)
      have heq : i + (j + 1) = i + 1 + j := by omega
      rw [heq] at h2; exact h2

/-- A fully successful replay pass forwards the whole file in order,
removes the file and clears the buffering flag. -/
theorem replay_all_ok (st : CaptureState) (entries : List BufferEntry)
    (ok : Nat → Bool) (hfile : st.buffer_file = some entries)
    (hok : ∀ i, ok i = true) :
    replay_disk_buffer st ok true =
      { st with store := st.store ++ entries.map (fun e => e.data),
                buffer_file := none, disk_buffer_active := false } := by
  unfold replay_disk_buffer
  rw [hfile]
  have hrl := replayLoop_all_ok_success ok entries 0 st.store (by intro j _; exact hok _)
  simp [hrl]

/-- Appending records to an existing buffer file extends it in order and
leaves the downstream store untouched. -/
theorem appendAll_buffer (recs : List (String × JVal)) :
    ∀ (st : CaptureState) (l : List BufferEntry), st.buffer_file = some l →
      (appendAll st recs).buffer_file = some (l ++ recs.map entryOf) ∧
      (appendAll st recs).store = st.store := by
  induction recs with
  | nil => intro st l h; simp [appendAll, h]
  | cons r rest ih =>
    intro st l h
    rcases r with ⟨ts, d⟩
    simp only [appendAll]
    have hw : (write_to_disk st ts d true).buffer_file = some (l ++ [entryOf (ts, d)]) := by
      simp [write_to_disk, h, entryOf]
    have hs : (write_to_disk st ts d true).store = st.store := by
      simp [write_to_disk]
    rcases ih (write_to_disk st ts d true) (l ++ [entryOf (ts, d)]) hw with ⟨h1, h2⟩
    constructor
    · rw [h1]; simp
    · rw [h2, hs]

/-- A health check never touches the buffering flag, the buffer file or
the store: it only probes and flips the health flag. -/
theorem check_redis_health_fields (st : CaptureState) (now : Nat) (pingOk : Bool) :
    (check_redis_health st now pingOk).disk_buffer_active = st.disk_buffer_active ∧
    (check_redis_health st now pingOk).buffer_file = st.buffer_file ∧
    (check_redis_health st now pingOk).store = st.store := by
  by_cases h1 : now - st.last_redis_check < redis_check_interval
  · simp [check_redis_health, h1]
  · cases hp : pingOk <;> cases hr : st.redis_healthy <;>
      simp [check_redis_health, h1, hp, hr]

/-- C1 (amended): with mode `HTTP_WITH_FALLBACK`, when the HTTP attempt
raises and the Redis attempt succeeds, `call_agent` returns the Redis
response tagged `transport_used = "redis_fallback"`; a matching envelope is
delivered as `redisResponse`, whose `data` is the entire decoded envelope
(the responder payload sits under its `data` key) and whose `error` is the
envelope `error` field - the failed primary error never reaches the
result. -/
theorem fallback_success_uses_redis_envelope
    (agent action rid : String) (ts : Nat)
    (st : DiscoveryState) (now : Nat) (lookup post : Except String HttpResp)
    (e : String) (conn : Except String Unit) (t0 : Nat) (msgs : List RedisMsg)
    (r : AgentResponse)
    (hhttp : call_via_http agent action rid st now lookup post = Except.error e)
    (hredis : call_via_redis rid ts conn t0 msgs = PyResult.ok r) :
    call_agent agent action .HTTP_WITH_FALLBACK none rid ts st now lookup post conn t0 msgs =
      PyResult.ok { r with transport_used := JVal.str "redis_fallback" } ∧
    (∀ (kvs : JObj) (a dl : Nat) (rest : List RedisMsg),
        pyGet kvs "request_id" = JVal.str rid →
        redisListen rid dl (⟨"message", some (JVal.obj kvs), a⟩ :: rest) =
          RedisOutcome.delivered (redisResponse kvs rid)) ∧
    (∀ kvs : JObj, (redisResponse kvs rid).data = JVal.obj kvs ∧
        (redisResponse kvs rid).error = pyGet kvs "error" ∧
        (redisResponse kvs rid).success =
          pyGetD kvs "success" (JVal.bool (!truthy (pyGet kvs "error")))) := by
  refine ⟨?_, ?_, ?_⟩
  · simp [call_agent, hhttp, redisPhase, hredis]
  · intro kvs a dl rest hmatch
    simp [redisListen, hmatch]
  · intro kvs
    exact ⟨rfl, rfl, rfl⟩

/-- C1 counterexample: the concrete scenario of the spec - secondary
responder envelope `(request_id X, success true, data (id abc))` - yields a
result whose `data` is the WHOLE envelope, not the inner `(id abc)` map the
claim source promises. -/
theorem fallback_data_is_whole_envelope_cex :
    call_agent "naming" "allocate_capability" .HTTP_WITH_FALLBACK none "X" 30
      ⟨none, none⟩ 0 (.error "connection refused") (.error "unused") (.ok ()) 0
      [⟨"message", some (JVal.obj (jobj [("request_id", JVal.str "X"), ("success", JVal.bool true),
          ("data", JVal.obj (jobj [("id", JVal.str "abc")]))])), 5⟩] =
    PyResult.ok
      { success := JVal.bool true,
        data := JVal.obj (jobj [("request_id", JVal.str "X"), ("success", JVal.bool true),
          ("data", JVal.obj (jobj [("id", JVal.str "abc")]))]),
        error := JVal.null,
        request_id := JVal.str "X",
        transport_used := JVal.str "redis_fallback" } ∧
    JVal.obj (jobj [("request_id", JVal.str "X"), ("success", JVal.bool true),
        ("data", JVal.obj (jobj [("id", JVal.str "abc")]))]) ≠
      JVal.obj (jobj [("id", JVal.str "abc")]) := by
  refine ⟨?_, ?_⟩ <;> decide

/-- Witness C1: the amended theorem applied to a concrete run in which
discovery is refused and the broker delivers a matching envelope. -/
theorem fallback_success_uses_redis_envelope_witness :
    call_via_http "naming" "a" "X" ⟨none, none⟩ 0 (.error "connection refused") (.error "unused") =
      Except.error "Service discovery failed: connection refused" ∧
    call_via_redis "X" 30 (.ok ()) 0
        [⟨"message", some (JVal.obj (jobj [("request_id", JVal.str "X")])), 5⟩] =
      PyResult.ok (redisResponse (jobj [("request_id", JVal.str "X")]) "X") ∧
    call_agent "naming" "a" .HTTP_WITH_FALLBACK none "X" 30 ⟨none, none⟩ 0
        (.error "connection refused") (.error "unused") (.ok ()) 0
        [⟨"message", some (JVal.obj (jobj [("request_id", JVal.str "X")])), 5⟩] =
      PyResult.ok { redisResponse (jobj [("request_id", JVal.str "X")]) "X" with
        transport_used := JVal.str "redis_fallback" } :=
  ⟨by decide, by decide,
   (fallback_success_uses_redis_envelope "naming" "a" "X" 30 ⟨none, none⟩ 0
      (.error "connection refused") (.error "unused")
      "Service discovery failed: connection refused" (.ok ()) 0
      [⟨"message", some (JVal.obj (jobj [("request_id", JVal.str "X")])), 5⟩]
      (redisResponse (jobj [("request_id", JVal.str "X")]) "X")
      (by decide) (by decide)).1⟩

/-- C2 (code bug): when the HTTP attempt fails with one cause (here a
refused discovery) and the Redis attempt fails with another ("redis
timeout"), the returned structured failure interpolates the REDIS exception
into both slots of the aggregated message (claude_http_client.py:142 uses
the same bound `e` twice), so the primary cause is absent from the error
text. -/
theorem both_failed_error_repeats_redis_cause :
    call_agent "naming" "allocate" .HTTP_WITH_FALLBACK none "r1" 30
      ⟨none, none⟩ 0 (.error "gateway connection refused") (.error "unused")
      (.error "redis timeout") 0 [] =
    PyResult.ok
      { success := JVal.bool false, data := JVal.null,
        error := JVal.str "Both HTTP and Redis transports failed. HTTP: redis timeout, Redis: redis timeout",
        request_id := JVal.str "r1", transport_used := JVal.str "all_failed" } ∧
    ¬ ("gateway connection refused".data <:+:
        "Both HTTP and Redis transports failed. HTTP: redis timeout, Redis: redis timeout".data) := by
  refine ⟨?_, ?_⟩ <;> decide

/-- C3 counterexample: a call whose response channel only ever carries the
subscription confirmation (no message after the deadline) never raises
`TimeoutError` - the listen loop blocks forever, refuting the claim that
the call raises rather than blocking. -/
theorem silent_channel_blocks_cex :
    call_via_redis "r1" 10 (.ok ()) 0 [⟨"subscribe", none, 1⟩] = PyResult.diverge ∧
    call_via_redis "r1" 10 (.ok ()) 0 [⟨"subscribe", none, 1⟩] ≠
      PyResult.exn "Redis call timed out after 10 seconds" := by
  refine ⟨?_, ?_⟩ <;> decide

/-- C3 (amended): a response is delivered iff its `request_id` matches the
outstanding id (delivered values are `redisResponse` of a matching
envelope; a matching head message is delivered); undecodable messages and
non-matching traffic processed before the deadline are discarded with no
effect on the outcome; after the deadline the NEXT processed non-matching
decodable (or non-message) item raises `TimeoutError` - a silent channel
blocks instead of raising. -/
theorem correlation_matching_and_timeout :
    (∀ (rid : String) (dl : Nat) (msgs : List RedisMsg) (r : AgentResponse),
        redisListen rid dl msgs = RedisOutcome.delivered r →
        ∃ kvs, r = redisResponse kvs rid ∧ pyGet kvs "request_id" = JVal.str rid) ∧
    (∀ (rid : String) (dl : Nat) (kvs : JObj) (a : Nat) (rest : List RedisMsg),
        pyGet kvs "request_id" = JVal.str rid →
        redisListen rid dl (⟨"message", some (JVal.obj kvs), a⟩ :: rest) =
          RedisOutcome.delivered (redisResponse kvs rid)) ∧
    (∀ (rid : String) (dl : Nat) (m : RedisMsg) (rest : List RedisMsg),
        (m.mtype = "message" ∧ m.payload = none) ∨
        (m.arrival ≤ dl ∧ m.mtype ≠ "message") ∨
        (m.arrival ≤ dl ∧ m.mtype = "message" ∧
          (∃ kvs, m.payload = some (JVal.obj kvs) ∧
            pyGet kvs "request_id" ≠ JVal.str rid)) →
        redisListen rid dl (m :: rest) = redisListen rid dl rest) ∧
    (∀ (rid : String) (dl : Nat) (m : RedisMsg) (rest : List RedisMsg),
        dl < m.arrival →
        (m.mtype ≠ "message" ∨
          (∃ kvs, m.payload = some (JVal.obj kvs) ∧
            pyGet kvs "request_id" ≠ JVal.str rid)) →
        redisListen rid dl (m :: rest) = RedisOutcome.timedOut) ∧
    (∀ (rid : String) (ts t0 : Nat) (msgs : List RedisMsg),
        redisListen rid (t0 + ts) msgs = RedisOutcome.timedOut →
        call_via_redis rid ts (Except.ok ()) t0 msgs =
          PyResult.exn ("Redis call timed out after " ++ toString ts ++ " seconds")) ∧
    (∀ (rid : String) (ts t0 : Nat) (msgs : List RedisMsg),
        redisListen rid (t0 + ts) msgs = RedisOutcome.blocked →
        call_via_redis rid ts (Except.ok ()) t0 msgs = PyResult.diverge) := by
  refine ⟨?_, ?_, ?_, ?_, ?_, ?_⟩
  · intro rid dl msgs
    induction msgs with
    | nil => intro r h; simp [redisListen] at h
    | cons m rest ih =>
      intro r h
      by_cases hm : m.mtype = "message"
      · rcases hp : m.payload with _ | v
        · rw [redisListen] at h
          simp [hm, hp] at h
          exact ih r h
        · cases v with
          | obj kvs =>
            by_cases hid : pyGet kvs "request_id" = JVal.str rid
            · rw [redisListen] at h
              simp [hm, hp, hid] at h
              exact ⟨kvs, h.symm, hid⟩
            · rw [redisListen] at h
              by_cases ha : m.arrival > dl
              · simp [hm, hp, hid, ha] at h
              · simp [hm, hp, hid, ha] at h
                exact ih r h
          | str s => rw [redisListen] at h; simp [hm, hp] at h
          | num n => rw [redisListen] at h; simp [hm, hp] at h
          | bool b => rw [redisListen] at h; simp [hm, hp] at h
          | null => rw [redisListen] at h; simp [hm, hp] at h
      · rw [redisListen] at h
        by_cases ha : m.arrival > dl
        · simp [hm, ha] at h
        · simp [hm, ha] at h
          exact ih r h
  · intro rid dl kvs a rest hmatch
    simp [redisListen, hmatch]
  · intro rid dl m rest hd
    rcases hd with ⟨hm, hp⟩ | ⟨ha, hm⟩ | ⟨ha, hm, kvs, hp, hid⟩
    · rw [redisListen]; simp [hm, hp]
    · rw [redisListen]; simp [hm, Nat.not_lt.mpr ha]
    · rw [redisListen]; simp [hm, hp, hid, Nat.not_lt.mpr ha]
  · intro rid dl m rest ha hd
    rcases hd with hm | ⟨kvs, hp, hid⟩
    · rw [redisListen]; simp [hm, ha]
    · rw [redisListen]
      by_cases hm : m.mtype = "message"
      · simp [hm, hp, hid, ha]
      · simp [hm, ha]
  · intro rid ts t0 msgs h
    simp [call_via_redis, h]
  · intro rid ts t0 msgs h
    simp [call_via_redis, h]

/-- Witness C3: a matching envelope is delivered; a non-matching envelope
arriving after the deadline raises the timeout. -/
theorem correlation_matching_and_timeout_witness :
    pyGet (jobj [("request_id", JVal.str "X")]) "request_id" = JVal.str "X" ∧
    redisListen "X" 10 [⟨"message", some (JVal.obj (jobj [("request_id", JVal.str "X")])), 3⟩] =
      RedisOutcome.delivered (redisResponse (jobj [("request_id", JVal.str "X")]) "X") ∧
    redisListen "X" 10 [⟨"message", some (JVal.obj (jobj [("request_id", JVal.str "Y")])), 11⟩] =
      RedisOutcome.timedOut :=
  ⟨by decide,
   correlation_matching_and_timeout.2.1 "X" 10 (jobj [("request_id", JVal.str "X")]) 3 []
     (by decide),
   correlation_matching_and_timeout.2.2.2.1 "X" 10
     ⟨"message", some (JVal.obj (jobj [("request_id", JVal.str "Y")])), 11⟩ []
     (by decide) (Or.inr ⟨jobj [("request_id", JVal.str "Y")], rfl, by decide⟩)⟩

/-- C4: a replay pass removes the buffer file only when every record
present at the start of the pass was forwarded to the store (in file
order); if any forward fails, the file keeps its FULL original contents -
records already forwarded included - ready for the next recovery pass
(at-least-once delivery). -/
theorem replay_clears_only_after_full_success
    (st : CaptureState) (entries : List BufferEntry) (ok : Nat → Bool)
    (unlinkOk : Bool) (hfile : st.buffer_file = some entries) :
    ((replay_disk_buffer st ok unlinkOk).buffer_file = none →
      (replay_disk_buffer st ok unlinkOk).store =
        st.store ++ entries.map (fun e => e.data)) ∧
    ((¬ ∀ i < entries.length, ok i = true) →
      (replay_disk_buffer st ok unlinkOk).buffer_file = some entries) := by
  unfold replay_disk_buffer
  rw [hfile]
  rcases hrl : replayLoop ok 0 st.store entries with ⟨store', success⟩
  cases success with
  | false =>
    constructor
    · intro h
      simp [hrl, hfile] at h
    · intro _
      simp [hrl, hfile]
  | true =>
    constructor
    · intro h
      have h2 : (replayLoop ok 0 st.store entries).2 = true := by rw [hrl]
      have h1 := replayLoop_success_store ok entries 0 st.store h2
      rw [hrl] at h1
      simp at h1
      cases unlinkOk with
      | false =>
        simp [hrl, hfile] at h
      | true =>
        simp [hrl, h1]
    · intro hnot
      exfalso
      apply hnot
      intro i hi
      have h2 : (replayLoop ok 0 st.store entries).2 = true := by rw [hrl]
      have := replayLoop_success_all_ok ok entries 0 st.store h2 i hi
      simpa using this

/-- Witness C4: with a two-entry file and the second forward failing, the
file keeps both entries. -/
theorem replay_clears_only_after_full_success_witness :
    (⟨true, true, 0, some [⟨"t1", conversation_stream, JVal.num 1⟩,
        ⟨"t2", conversation_stream, JVal.num 2⟩], []⟩ : CaptureState).buffer_file =
      some [⟨"t1", conversation_stream, JVal.num 1⟩, ⟨"t2", conversation_stream, JVal.num 2⟩] ∧
    (replay_disk_buffer ⟨true, true, 0, some [⟨"t1", conversation_stream, JVal.num 1⟩,
        ⟨"t2", conversation_stream, JVal.num 2⟩], []⟩ okFirstOnly true).buffer_file =
      some [⟨"t1", conversation_stream, JVal.num 1⟩, ⟨"t2", conversation_stream, JVal.num 2⟩] :=
  ⟨rfl,
   (replay_clears_only_after_full_success
      ⟨true, true, 0, some [⟨"t1", conversation_stream, JVal.num 1⟩,
        ⟨"t2", conversation_stream, JVal.num 2⟩], []⟩
      [⟨"t1", conversation_stream, JVal.num 1⟩, ⟨"t2", conversation_stream, JVal.num 2⟩]
      okFirstOnly true rfl).2 (by decide)⟩

/-- C5: records appended to an (initially absent) disk buffer in order
R1..Rn are forwarded to the downstream store in exactly that order by a
fully successful replay pass, after which the buffer file is absent. -/
theorem buffer_fifo_round_trip
    (st : CaptureState) (recs : List (String × JVal)) (ok : Nat → Bool)
    (hfile : st.buffer_file = none) (hok : ∀ i, ok i = true) :
    (replay_disk_buffer (appendAll st recs) ok true).store =
      st.store ++ recs.map Prod.snd ∧
    (replay_disk_buffer (appendAll st recs) ok true).buffer_file = none := by
  cases recs with
  | nil =>
    simp [appendAll, replay_disk_buffer, hfile]
  | cons r rest =>
    rcases r with ⟨ts, d⟩
    simp only [appendAll]
    have hw : (write_to_disk st ts d true).buffer_file = some [entryOf (ts, d)] := by
      simp [write_to_disk, hfile, entryOf]
    have hs : (write_to_disk st ts d true).store = st.store := by
      simp [write_to_disk]
    rcases appendAll_buffer rest (write_to_disk st ts d true) [entryOf (ts, d)] hw with ⟨h1, h2⟩
    rw [replay_all_ok (appendAll (write_to_disk st ts d true) rest)
          ([entryOf (ts, d)] ++ rest.map entryOf) ok (by rw [h1]) hok]
    simp [h2, hs, entryOf]

/-- Witness C5: R1, R2, R3 buffered then replayed arrive in the store as
R1, R2, R3 and the file is gone. -/
theorem buffer_fifo_round_trip_witness :
    (replay_disk_buffer (appendAll ⟨false, true, 0, none, []⟩
        [("t1", JVal.num 1), ("t2", JVal.num 2), ("t3", JVal.num 3)]) okAll true).store =
      [JVal.num 1, JVal.num 2, JVal.num 3] ∧
    (replay_disk_buffer (appendAll ⟨false, true, 0, none, []⟩
        [("t1", JVal.num 1), ("t2", JVal.num 2), ("t3", JVal.num 3)]) okAll true).buffer_file =
      none := by
  have h := buffer_fifo_round_trip ⟨false, true, 0, none, []⟩
    [("t1", JVal.num 1), ("t2", JVal.num 2), ("t3", JVal.num 3)] okAll rfl (fun i => rfl)
  exact ⟨by rw [h.1]; decide, h.2⟩

/-- C6 (amended): a cached NON-EMPTY (truthy) descriptor younger than the
TTL is returned with no lookup (the result does not depend on the lookup
argument); when no such cache exists - including the case of a cached
empty descriptor, which Python truthiness treats as absent - the lookup
runs: on success it replaces the cache wholesale and returns the fresh
info, and on failure it raises a discovery error (the failure path never
reads the cache, so there is no stale fallback). -/
theorem discovery_cache_policy :
    (∀ (info : JVal) (t now : Nat) (lookup : Except String HttpResp),
        truthy info = true → now - t < cache_ttl_seconds →
        discover_gateway ⟨some info, some t⟩ now lookup =
          Except.ok (info, ⟨some info, some t⟩)) ∧
    (∀ (st : DiscoveryState) (now : Nat) (lookup : Except String HttpResp),
        (∀ info t, st.gateway_info = some info → st.gateway_cache_time = some t →
            truthy info = false ∨ cache_ttl_seconds ≤ now - t) →
        discover_gateway st now lookup = gatewayLookup now lookup) ∧
    (∀ (now : Nat) (data : JObj) (text : String),
        truthy (pyGet data "success") = true →
        gatewayLookup now (Except.ok ⟨200, some (JVal.obj data), text⟩) =
          Except.ok (pyGetD data "service" (JVal.obj JObj.nil),
            ⟨some (pyGetD data "service" (JVal.obj JObj.nil)), some now⟩)) ∧
    (∀ (now : Nat) (e : String),
        gatewayLookup now (Except.error e) =
          Except.error ("Service discovery failed: " ++ e)) := by
  refine ⟨?_, ?_, ?_, ?_⟩
  · intro info t now lookup ht hf
    simp [discover_gateway, ht, hf]
  · intro st now lookup h
    rcases st with ⟨gi, gt⟩
    cases gi with
    | none => cases gt <;> simp [discover_gateway]
    | some info =>
      cases gt with
      | none => simp [discover_gateway]
      | some t =>
        rcases h info t rfl rfl with h1 | h1
        · simp [discover_gateway, h1]
        · simp [discover_gateway, Nat.not_lt.mpr h1]
  · intro now data text h
    simp [gatewayLookup, h]
  · intro now e
    rfl

/-- C6 counterexample: a cached EMPTY descriptor aged 9s (well inside the
300s TTL) is not returned - the lookup runs and its fresh result is
returned and cached instead, refuting the claim for that cached value. -/
theorem empty_cached_descriptor_cex :
    discover_gateway ⟨some (JVal.obj JObj.nil), some 1⟩ 10
      (Except.ok ⟨200, some (JVal.obj (jobj [("success", JVal.bool true),
        ("service", JVal.obj (jobj [("port", JVal.num 8090)]))])), ""⟩) =
    Except.ok (JVal.obj (jobj [("port", JVal.num 8090)]),
      ⟨some (JVal.obj (jobj [("port", JVal.num 8090)])), some 10⟩) ∧
    JVal.obj (jobj [("port", JVal.num 8090)]) ≠ JVal.obj JObj.nil := by
  refine ⟨?_, ?_⟩ <;> decide

/-- Witness C6: a fresh non-empty cached descriptor is returned unchanged
even though the lookup argument is a hard failure. -/
theorem discovery_cache_policy_witness :
    truthy (JVal.obj (jobj [("port", JVal.num 8090)])) = true ∧
    10 - 1 < cache_ttl_seconds ∧
    discover_gateway ⟨some (JVal.obj (jobj [("port", JVal.num 8090)])), some 1⟩ 10 (.error "x") =
      Except.ok (JVal.obj (jobj [("port", JVal.num 8090)]),
        ⟨some (JVal.obj (jobj [("port", JVal.num 8090)])), some 1⟩) :=
  ⟨by decide, by decide,
   discovery_cache_policy.1 (JVal.obj (jobj [("port", JVal.num 8090)])) 1 10 (.error "x")
     (by decide) (by decide)⟩

/-- C7 (amended): probes inside `check_interval` return the cached state
without probing; a successful probe while `Unhealthy` flips the state to
`Healthy` but runs NO replay itself (buffer file and store untouched); the
single replay pass runs at the next `_stream_conversation` whose direct
store write succeeds while the disk buffer is active - and when the buffer
is inactive a successful write triggers no replay. -/
theorem health_probe_and_replay_scheduling :
    (∀ (st : CaptureState) (now : Nat) (pingOk : Bool),
        now - st.last_redis_check < redis_check_interval →
        check_redis_health st now pingOk = st) ∧
    (∀ (st : CaptureState) (now : Nat),
        redis_check_interval ≤ now - st.last_redis_check →
        st.redis_healthy = false →
        check_redis_health st now true =
          { st with redis_healthy := true, last_redis_check := now }) ∧
    (∀ (st : CaptureState) (cd : JVal) (now : Nat) (pingOk : Bool)
        (ok : Nat → Bool) (tstamp : String) (diskOk : Bool)
        (entries : List BufferEntry),
        (check_redis_health st now pingOk).redis_healthy = true →
        st.disk_buffer_active = true →
        st.buffer_file = some entries →
        (∀ i, ok i = true) →
        stream_conversation st cd now pingOk true ok true tstamp diskOk =
          { check_redis_health st now pingOk with
              store := st.store ++ [stream_payload cd] ++ entries.map (fun e => e.data),
              buffer_file := none,
              disk_buffer_active := false }) ∧
    (∀ (st : CaptureState) (cd : JVal) (now : Nat) (pingOk : Bool)
        (ok : Nat → Bool) (unlinkOk : Bool) (tstamp : String) (diskOk : Bool),
        (check_redis_health st now pingOk).redis_healthy = true →
        st.disk_buffer_active = false →
        stream_conversation st cd now pingOk true ok unlinkOk tstamp diskOk =
          { check_redis_health st now pingOk with
              store := st.store ++ [stream_payload cd] }) := by
  refine ⟨?_, ?_, ?_, ?_⟩
  · intro st now pingOk h
    unfold check_redis_health
    simp [h]
  · intro st now h hunh
    unfold check_redis_health
    rw [if_neg (by omega)]
    simp [hunh]
  · intro st cd now pingOk ok tstamp diskOk entries hh hact hfile hok
    rcases check_redis_health_fields st now pingOk with ⟨f1, f2, f3⟩
    simp only [stream_conversation, hh, if_true, f1, hact]
    rw [replay_all_ok
        { redis_healthy := true, disk_buffer_active := true,
          last_redis_check := (check_redis_health st now pingOk).last_redis_check,
          buffer_file := (check_redis_health st now pingOk).buffer_file,
          store := (check_redis_health st now pingOk).store ++ [stream_payload cd] }
        entries ok (by simp [f2, hfile]) hok]
    simp [f3, hh]
  · intro st cd now pingOk ok unlinkOk tstamp diskOk hh hact
    rcases check_redis_health_fields st now pingOk with ⟨f1, f2, f3⟩
    simp only [stream_conversation, hh, if_true, f1, hact]
    simp [f3]

/-- C7 counterexample: Unhealthy state, one buffered entry, probe interval
elapsed. The probe succeeds - so the Unhealthy-to-Healthy transition
happens inside this step - but the subsequent direct write raises, so the
step ends with NOTHING forwarded (store still empty, file still holding
the entry) and health flipped back: the recovery transition triggered zero
replay passes, refuting "exactly one pass per transition". -/
theorem recovery_transition_without_replay_cex :
    (check_redis_health ⟨false, true, 0, some [⟨"t", conversation_stream, JVal.num 7⟩], []⟩
        100 true).redis_healthy = true ∧
    stream_conversation ⟨false, true, 0, some [⟨"t", conversation_stream, JVal.num 7⟩], []⟩
        JVal.null 100 true false okAll true "t2" true =
      ⟨false, true, 100, some [⟨"t", conversation_stream, JVal.num 7⟩,
        ⟨"t2", conversation_stream, JVal.obj (jobj [("data", JVal.str "null")])⟩], []⟩ := by
  refine ⟨?_, ?_⟩ <;> decide

/-- Witness C7: interval-gated probe returns the state unchanged; an
overdue successful probe flips only the health flag; the next successful
gated write replays the single buffered entry exactly once. -/
theorem health_probe_and_replay_scheduling_witness :
    check_redis_health ⟨false, true, 0, some [⟨"t0", conversation_stream, JVal.num 7⟩], []⟩ 10 true =
      ⟨false, true, 0, some [⟨"t0", conversation_stream, JVal.num 7⟩], []⟩ ∧
    check_redis_health ⟨false, true, 0, some [⟨"t0", conversation_stream, JVal.num 7⟩], []⟩ 50 true =
      ⟨true, true, 50, some [⟨"t0", conversation_stream, JVal.num 7⟩], []⟩ ∧
    stream_conversation ⟨true, true, 40, some [⟨"t0", conversation_stream, JVal.num 7⟩], []⟩
        (JVal.num 1) 50 true true okAll true "t" true =
      ⟨true, false, 40, none, [stream_payload (JVal.num 1), JVal.num 7]⟩ := by
  refine ⟨?_, ?_, ?_⟩
  · exact health_probe_and_replay_scheduling.1
      ⟨false, true, 0, some [⟨"t0", conversation_stream, JVal.num 7⟩], []⟩ 10 true (by decide)
  · exact health_probe_and_replay_scheduling.2.1
      ⟨false, true, 0, some [⟨"t0", conversation_stream, JVal.num 7⟩], []⟩ 50 (by decide) rfl
  · rw [health_probe_and_replay_scheduling.2.2.1
      ⟨true, true, 40, some [⟨"t0", conversation_stream, JVal.num 7⟩], []⟩
      (JVal.num 1) 50 true okAll "t" true [⟨"t0", conversation_stream, JVal.num 7⟩]
      (by decide) rfl rfl (fun i => rfl)]
    decide

/-- C8 (code bug): a failing buffer append returns the state unchanged -
the record is lost and no error escapes the call; a failing replay forward
likewise returns normally with the file intact; and on the producing path
an unhealthy write whose disk append fails returns the state unchanged, so
the event vanishes silently.  All three calls are total (they model the
catch-all handlers at main.py:411 and main.py:440): nothing is propagated
to the invoking path, refuting the claim that buffer I/O failures are
propagated. -/
theorem buffer_io_failure_swallowed :
    write_to_disk ⟨false, true, 0, some [], []⟩ "t" (JVal.num 5) false =
      ⟨false, true, 0, some [], []⟩ ∧
    replay_disk_buffer ⟨true, true, 0, some [⟨"t", conversation_stream, JVal.num 5⟩], []⟩
        okNone true =
      ⟨true, true, 0, some [⟨"t", conversation_stream, JVal.num 5⟩], []⟩ ∧
    stream_conversation ⟨false, true, 5, some [], []⟩ (JVal.num 9) 10 true true okAll true "t" false =
      ⟨false, true, 5, some [], []⟩ := by
  refine ⟨?_, ?_, ?_⟩ <;> decide

/-- C9 (amended): the target URL of the primary transport takes only the
PORT from the resolved gateway descriptor; the host part is the hardcoded
literal `localhost`, whatever host the descriptor carries. -/
theorem url_port_from_descriptor_host_localhost
    (kvs : JObj) (p : JVal) (agent action : String)
    (hport : kvs.lookup "port" = some p) :
    buildAgentUrl (JVal.obj kvs) agent action =
      Except.ok ("http://localhost:" ++ pyStr p ++ "/api/agents/" ++ agent ++ "/" ++ action) := by
  simp [buildAgentUrl, hport]

/-- C9 counterexample: a descriptor advertising host 10.1.2.3 and port
9000 produces a URL addressed to localhost:9000 - the descriptor host
appears nowhere in the URL, refuting the claim that the host comes from
the descriptor. -/
theorem url_host_not_from_descriptor_cex :
    buildAgentUrl (JVal.obj (jobj [("host", JVal.str "10.1.2.3"), ("port", JVal.num 9000)]))
        "naming" "allocate_capability" =
      Except.ok "http://localhost:9000/api/agents/naming/allocate_capability" ∧
    ¬ ("10.1.2.3".data <:+: "http://localhost:9000/api/agents/naming/allocate_capability".data) := by
  refine ⟨?_, ?_⟩ <;> decide

/-- Witness C9: the amended theorem at a concrete descriptor. -/
theorem url_port_from_descriptor_witness :
    (jobj [("host", JVal.str "10.1.2.3"), ("port", JVal.num 8090)]).lookup "port" =
      some (JVal.num 8090) ∧
    buildAgentUrl (JVal.obj (jobj [("host", JVal.str "10.1.2.3"), ("port", JVal.num 8090)]))
        "naming" "act" =
      Except.ok ("http://localhost:" ++ pyStr (JVal.num 8090) ++ "/api/agents/" ++
        "naming" ++ "/" ++ "act") :=
  ⟨by decide,
   url_port_from_descriptor_host_localhost
     (jobj [("host", JVal.str "10.1.2.3"), ("port", JVal.num 8090)])
     (JVal.num 8090) "naming" "act" (by decide)⟩

/-- C10: on a 200 response whose body is a JSON object, a missing
`success` field defaults the result to success = true and a missing `data`
field makes the WHOLE body the result data, so a body lacking both yields
a successful result carrying the entire body. -/
theorem http_200_missing_fields_defaults
    (agent action rid text : String) (st st2 : DiscoveryState) (now : Nat)
    (lookup : Except String HttpResp) (g : JVal) (url : String) (kvs : JObj)
    (hdisc : discover_gateway st now lookup = Except.ok (g, st2))
    (hurl : buildAgentUrl g agent action = Except.ok url) :
    call_via_http agent action rid st now lookup
        (Except.ok ⟨200, some (JVal.obj kvs), text⟩) =
      Except.ok ({ success := pyGetD kvs "success" (JVal.bool true),
                   data := pyGetD kvs "data" (JVal.obj kvs),
                   error := pyGet kvs "error",
                   request_id := JVal.str rid }, st2) ∧
    (kvs.lookup "success" = none → pyGetD kvs "success" (JVal.bool true) = JVal.bool true) ∧
    (kvs.lookup "data" = none → pyGetD kvs "data" (JVal.obj kvs) = JVal.obj kvs) := by
  refine ⟨?_, ?_, ?_⟩
  · simp [call_via_http, hdisc, hurl, Bind.bind, Except.bind]
  · intro h; simp [pyGetD, h]
  · intro h; simp [pyGetD, h]

/-- Witness C10: a 200 body with neither field yields success = true with
the whole body as data. -/
theorem http_200_missing_fields_defaults_witness :
    discover_gateway ⟨some (JVal.obj (jobj [("port", JVal.num 8090)])), some 1⟩ 10 (.error "x") =
      Except.ok (JVal.obj (jobj [("port", JVal.num 8090)]),
        ⟨some (JVal.obj (jobj [("port", JVal.num 8090)])), some 1⟩) ∧
    (jobj [("foo", JVal.str "bar")]).lookup "success" = none ∧
    (jobj [("foo", JVal.str "bar")]).lookup "data" = none ∧
    call_via_http "naming" "act" "r1" ⟨some (JVal.obj (jobj [("port", JVal.num 8090)])), some 1⟩
        10 (.error "x") (Except.ok ⟨200, some (JVal.obj (jobj [("foo", JVal.str "bar")])), "body"⟩) =
      Except.ok ({ success := JVal.bool true, data := JVal.obj (jobj [("foo", JVal.str "bar")]),
                   error := JVal.null, request_id := JVal.str "r1" },
        ⟨some (JVal.obj (jobj [("port", JVal.num 8090)])), some 1⟩) := by
  refine ⟨by decide, by decide, by decide, ?_⟩
  rw [(http_200_missing_fields_defaults "naming" "act" "r1" "body"
      ⟨some (JVal.obj (jobj [("port", JVal.num 8090)])), some 1⟩
      ⟨some (JVal.obj (jobj [("port", JVal.num 8090)])), some 1⟩ 10 (.error "x")
      (JVal.obj (jobj [("port", JVal.num 8090)]))
      "http://localhost:8090/api/agents/naming/act" (jobj [("foo", JVal.str "bar")])
      (by decide) (by decide)).1]
  decide
